import Mathlib

/-!
Shallow embedding of the wpt messaging helpers
(`resources/messaging-helpers.js`, provided as `src/unnamed/part_000`) and
of the postMessage test driver
(`src/native-file-system/FileSystemBaseHandle-postMessage.tentative.https.window.js`).

JavaScript values are modelled as follows: thrown values become an explicit
`JsError` inductive carried in `Except`; a JS string thrown with `throw 'msg'`
is `JsError.stringError`; platform exceptions (`TypeError`, `ReferenceError`)
get their own constructors; `assert_equals` failures from the web-platform
test harness become `JsError.assertionError` carrying the description string.
Absent object properties (JS `undefined`) are modelled with `Option`.
`String.prototype.localeCompare` is modelled as the lexicographic order on
strings (`≤` from the `LinearOrder String` instance), which agrees with it on
the ASCII names used by the tests.
-/

/-- Kinds of values thrown by the JavaScript under verification. -/
inductive JsError where
  | stringError (s : String)
  | typeError (msg : String)
  | referenceError (msg : String)
  | assertionError (description : String)
deriving DecidableEq, Repr

/-- Result of `FileSystemHandle.queryPermission`, a tri-state. -/
inductive PermissionState where
  | granted
  | denied
  | prompt
deriving DecidableEq, Repr

/-- A FileSystemHandle-like object handed to `serialize_handle`.  A `file`
has `isFile = true`, a `directory` has `isDirectory = true`, and `other`
is any object with neither flag set; `other` carries the string that the
JS template interpolation of the object would produce.  A directory's
`children` list is the enumeration order in which `getEntries()` yields
its children (unspecified by the platform, hence arbitrary here). -/
inductive Handle where
  | file (name : String) (readPerm writePerm : PermissionState) (contents : String)
  | directory (name : String) (readPerm writePerm : PermissionState) (children : List Handle)
  | other (str : String)

/-- JS property `isFile`. -/
def Handle.isFile : Handle → Bool
  | .file _ _ _ _ => true
  | _ => false

/-- JS property `isDirectory`. -/
def Handle.isDirectory : Handle → Bool
  | .directory _ _ _ _ => true
  | _ => false

/-- The plain snapshot object built by the serializers.  A single record
covers both file and directory snapshots: a file snapshot has
`file_contents = some _` and `files = directories = none`, a directory
snapshot the other way around (`Object.assign` over the shared base). -/
inductive Snapshot where
  | mk (is_file : Bool) (is_directory : Bool) (name : String)
      (read_permission : PermissionState) (write_permission : PermissionState)
      (file_contents : Option String)
      (files : Option (List Snapshot))
      (directories : Option (List Snapshot))

/-- Property access `snapshot.is_file`. -/
def Snapshot.is_file : Snapshot → Bool
  | .mk f _ _ _ _ _ _ _ => f

/-- Property access `snapshot.is_directory`. -/
def Snapshot.is_directory : Snapshot → Bool
  | .mk _ d _ _ _ _ _ _ => d

/-- Property access `snapshot.name`. -/
def Snapshot.name : Snapshot → String
  | .mk _ _ n _ _ _ _ _ => n

/-- Property access `snapshot.read_permission`. -/
def Snapshot.read_permission : Snapshot → PermissionState
  | .mk _ _ _ r _ _ _ _ => r

/-- Property access `snapshot.write_permission`. -/
def Snapshot.write_permission : Snapshot → PermissionState
  | .mk _ _ _ _ w _ _ _ => w

/-- Property access `snapshot.file_contents` (`none` = absent/undefined). -/
def Snapshot.file_contents : Snapshot → Option String
  | .mk _ _ _ _ _ c _ _ => c

/-- Property access `snapshot.files` (`none` = absent/undefined). -/
def Snapshot.files : Snapshot → Option (List Snapshot)
  | .mk _ _ _ _ _ _ fs _ => fs

/-- Property access `snapshot.directories` (`none` = absent/undefined). -/
def Snapshot.directories : Snapshot → Option (List Snapshot)
  | .mk _ _ _ _ _ _ _ ds => ds

/-- Message of the string thrown when an object is neither a
FileSystemFileHandle nor a FileSystemDirectoryHandle (the interpolated
object representation is appended by the callers). -/
def not_a_handle_message : String :=
  "Object is not a FileSystemFileHandle or FileSystemDirectoryHandle "

/-- Embedding of `serialize_file_system_handle`: the dictionary of
properties shared by file and directory snapshots (`isFile`,
`isDirectory`, `name` and the two queried permissions).  The `other`
case is unreachable from `serialize_handle`, which throws first. -/
def serialize_file_system_handle : Handle → Snapshot
  | .file n rp wp _ => .mk true false n rp wp none none none
  | .directory n rp wp _ => .mk false true n rp wp none none none
  | .other _ => .mk false false "" .prompt .prompt none none none

/-- Object.assign of `{ file_contents }` onto a base snapshot. -/
def Snapshot.assignFileContents : Snapshot → String → Snapshot
  | .mk f d n r w _ fs ds, c => .mk f d n r w (some c) fs ds

/-- Object.assign of `{ files, directories }` onto a base snapshot. -/
def Snapshot.assignChildren : Snapshot → List Snapshot → List Snapshot → Snapshot
  | .mk f d n r w c _ _, fs, ds => .mk f d n r w c (some fs) (some ds)

/-- Lexicographic comparison on character lists, the model of
`String.prototype.localeCompare` returning a non-positive value. -/
def char_list_le : List Char → List Char → Bool
  | [], _ => true
  | _ :: _, [] => false
  | a :: as, b :: bs => if a = b then char_list_le as bs else decide (a < b)

/-- Comparison `a.localeCompare(b) <= 0`, modelled lexicographically. -/
def locale_compare_le (a b : String) : Bool := char_list_le a.data b.data

theorem char_list_le_total : ∀ as bs : List Char,
    char_list_le as bs = true ∨ char_list_le bs as = true
  | [], _ => .inl (by simp [char_list_le])
  | _ :: _, [] => .inr (by simp [char_list_le])
  | a :: as, b :: bs => by
      by_cases hab : a = b
      · subst hab
        rcases char_list_le_total as bs with h | h
        · exact .inl (by simpa [char_list_le] using h)
        · exact .inr (by simpa [char_list_le] using h)
      · rcases lt_or_gt_of_ne hab with h | h
        · exact .inl (by simp [char_list_le, hab, h])
        · exact .inr (by simp [char_list_le, Ne.symm hab, h])

theorem char_list_le_trans : ∀ as bs cs : List Char,
    char_list_le as bs = true → char_list_le bs cs = true →
    char_list_le as cs = true
  | [], _, _, _, _ => by simp [char_list_le]
  | _ :: _, [], _, h1, _ => by simp [char_list_le] at h1
  | _ :: _, _ :: _, [], _, h2 => by simp [char_list_le] at h2
  | a :: as, b :: bs, c :: cs, h1, h2 => by
      by_cases hab : a = b
      · subst hab
        simp only [char_list_le, if_pos rfl] at h1
        by_cases hac : a = c
        · subst hac
          simp only [char_list_le, if_pos rfl] at h2 ⊢
          exact char_list_le_trans as bs cs h1 h2
        · simpa [char_list_le, hac] using h2
      · simp only [char_list_le, if_neg hab, decide_eq_true_eq] at h1
        by_cases hbc : b = c
        · subst hbc
          simp [char_list_le, hab, h1]
        · simp only [char_list_le, if_neg hbc, decide_eq_true_eq] at h2
          have hac := lt_trans h1 h2
          simp [char_list_le, ne_of_lt hac, hac]

/-- Sort comparator used on serialized children:
`(left, right) => left.name.localeCompare(right.name)` keeps `left` before
`right` when the comparison is non-positive. -/
def snapNameLe (a b : Snapshot) : Prop := locale_compare_le a.name b.name = true

instance : DecidableRel snapNameLe := fun a b =>
  inferInstanceAs (Decidable (locale_compare_le a.name b.name = true))

instance : IsTotal Snapshot snapNameLe :=
  ⟨fun a b => char_list_le_total a.name.data b.name.data⟩

instance : IsTrans Snapshot snapNameLe :=
  ⟨fun _ _ _ hab hbc => char_list_le_trans _ _ _ hab hbc⟩

mutual

/-- Embedding of `serialize_handle`: dispatch on `isDirectory` then
`isFile`, otherwise throw the not-a-handle string. -/
def serialize_handle : Handle → Except JsError Snapshot
  | .directory n rp wp cs =>
      serialize_file_system_directory_handle (.directory n rp wp cs)
  | .file n rp wp c =>
      serialize_file_system_file_handle (.file n rp wp c)
  | .other s =>
      .error (.stringError (not_a_handle_message ++ s))

/-- Embedding of `serialize_file_system_file_handle`: read the file
contents, build the shared base, assign `file_contents`. -/
def serialize_file_system_file_handle : Handle → Except JsError Snapshot
  | .file n rp wp c =>
      .ok ((serialize_file_system_handle (.file n rp wp c)).assignFileContents c)
  | h => .error (.typeError ("getFile is not a function on " ++ toString h.isFile))

/-- Embedding of `serialize_file_system_directory_handle`: serialize each
child in enumeration order, partitioning into files and directories, then
sort each partition by name, then assign both onto the shared base. -/
def serialize_file_system_directory_handle : Handle → Except JsError Snapshot
  | .directory n rp wp cs => do
      let (serialized_files, serialized_directories) ← serialize_children cs
      let sorted_files := List.insertionSort snapNameLe serialized_files
      let sorted_directories := List.insertionSort snapNameLe serialized_directories
      .ok ((serialize_file_system_handle (.directory n rp wp cs)).assignChildren
        sorted_files sorted_directories)
  | h => .error (.typeError ("getEntries is not a function on " ++ toString h.isFile))

/-- The `for await` loop of `serialize_file_system_directory_handle`: each
child is serialized (a failure aborts the whole serialization) and pushed
onto the files or the directories partition, preserving enumeration order
within each partition. -/
def serialize_children : List Handle → Except JsError (List Snapshot × List Snapshot)
  | [] => .ok ([], [])
  | child :: rest => do
      let s ← serialize_handle child
      let (fs, ds) ← serialize_children rest
      if child.isDirectory then .ok (fs, s :: ds) else .ok (s :: fs, ds)

end

/-- Embedding of testharness `assert_equals`: succeed when the two values
are equal, otherwise raise an assertion error carrying the description. -/
def assert_equals {α : Type} [DecidableEq α] (actual expected : α)
    (description : String) : Except JsError Unit :=
  if actual = expected then .ok () else .error (.assertionError description)

/-- Embedding of `assert_equals_serialized_file_system_handles`: the five
shared fields are compared in order, each with its own description. -/
def assert_equals_serialized_file_system_handles (left right : Snapshot) :
    Except JsError Unit := do
  assert_equals left.is_file right.is_file
    "Each FileSystemHandle instance must use the expected \"isFile\"."
  assert_equals left.is_directory right.is_directory
    "Each FileSystemHandle instance must use the expected \"isDirectory\"."
  assert_equals left.name right.name
    "Each FileSystemHandle instance must use the expected \"name\"  property."
  assert_equals left.read_permission right.read_permission
    "Each FileSystemHandle instance must have the expected read  permission."
  assert_equals left.write_permission right.write_permission
    "Each FileSystemHandle instance must have the expected write  permission."

/-- Embedding of `assert_equals_serialized_file_system_file_handles`:
shared fields, then exact `file_contents` equality. -/
def assert_equals_serialized_file_system_file_handles (left right : Snapshot) :
    Except JsError Unit := do
  assert_equals_serialized_file_system_handles left right
  assert_equals left.file_contents right.file_contents
    "Each FileSystemFileHandle instance must have the same contents."

/-- Message of the TypeError raised when JS reads `.length` from an absent
(`undefined`) property. -/
def length_of_undefined_message : String :=
  "Cannot read properties of undefined (reading length)"

/-- Description used for the file-children count comparison. -/
def file_count_description : String :=
  "Each FileSystemDirectoryHandle must contain the same number of file children"

/-- Description used for the directory-children count comparison. -/
def directory_count_description : String :=
  "Each FileSystemDirectoryHandle must contain the same number of directory children"

/-- The file-children loop of
`assert_equals_serialized_file_system_directory_handles`: pairwise by
index over the left list; indexing past the right list would read
`undefined` in JS (unreachable after the length check). -/
def compare_serialized_file_lists : List Snapshot → List Snapshot → Except JsError Unit
  | [], _ => .ok ()
  | l :: ls, r :: rs => do
      assert_equals_serialized_file_system_file_handles l r
      compare_serialized_file_lists ls rs
  | _ :: _, [] => .error (.typeError length_of_undefined_message)

mutual

/-- Embedding of `assert_equals_serialized_file_system_directory_handles`:
shared fields first, then the `files` length check followed by the
pairwise file comparison, then the `directories` length check followed by
the pairwise (recursive) directory comparison.  Reading `.length` from an
absent sequence raises the modelled TypeError, as in JS. -/
def assert_equals_serialized_file_system_directory_handles :
    Snapshot → Snapshot → Except JsError Unit
  | .mk lf ld ln lr lw lfc lfs lds, right => do
      assert_equals_serialized_file_system_handles
        (.mk lf ld ln lr lw lfc lfs lds) right
      match lfs, right.files with
      | none, _ => .error (.typeError length_of_undefined_message)
      | some _, none => .error (.typeError length_of_undefined_message)
      | some lfsl, some rfsl => do
          assert_equals lfsl.length rfsl.length file_count_description
          compare_serialized_file_lists lfsl rfsl
          match lds, right.directories with
          | none, _ => .error (.typeError length_of_undefined_message)
          | some _, none => .error (.typeError length_of_undefined_message)
          | some ldsl, some rdsl => do
              assert_equals ldsl.length rdsl.length directory_count_description
              compare_serialized_directory_lists ldsl rdsl

/-- The directory-children loop of
`assert_equals_serialized_file_system_directory_handles`, pairwise by
index and recursive into subdirectory snapshots. -/
def compare_serialized_directory_lists :
    List Snapshot → List Snapshot → Except JsError Unit
  | [], _ => .ok ()
  | l :: ls, r :: rs => do
      assert_equals_serialized_file_system_directory_handles l r
      compare_serialized_directory_lists ls rs
  | _ :: _, [] => .error (.typeError length_of_undefined_message)

end

/-- Embedding of `assert_equals_serialized_handles`: dispatch on the left
snapshot's `is_directory` then `is_file` flags.  The fallback branch of
the source builds its throw message with the identifier `handle`, which
is not bound anywhere in that function; under the strict mode declared at
the top of the script, evaluating that identifier raises a
`ReferenceError` before the string can be thrown. -/
def assert_equals_serialized_handles (left right : Snapshot) :
    Except JsError Unit :=
  if left.is_directory then
    assert_equals_serialized_file_system_directory_handles left right
  else if left.is_file then
    assert_equals_serialized_file_system_file_handles left right
  else
    .error (.referenceError "handle is not defined")

/-- The plain dictionary built by `serialize_message_error_event`. -/
structure SerializedMessageErrorEvent where
  data : Option String
  origin : String
  last_event_id : String
  has_source : Bool
  ports_length : Nat
deriving DecidableEq, Repr

/-- Embedding of `assert_equals_serialized_message_error_event`: the five
fields are checked in order against null, the expected origin, the empty
string, the expected source presence and zero ports. -/
def assert_equals_serialized_message_error_event
    (serialized_event : SerializedMessageErrorEvent)
    (expected_origin : String) (expected_has_source : Bool) :
    Except JsError Unit := do
  assert_equals serialized_event.data (none : Option String)
    "The message error event must set the \"data\" property to null."
  assert_equals serialized_event.origin expected_origin
    "The message error event must have the expected \"origin\" property."
  assert_equals serialized_event.last_event_id ""
    "The message error event must set the \"lastEventId\" property to the empty string."
  assert_equals serialized_event.has_source expected_has_source
    "The message error event must have the expected \"source\" property."
  assert_equals serialized_event.ports_length 0
    "The message error event not contain any message ports."

/-- A reply-capable endpoint reference (a window, worker, message port or
broadcast channel), identified abstractly. -/
inductive Dest where
  | endpoint (id : Nat)
  | broadcastChannel (channelName : String)
deriving DecidableEq, Repr

/-- A JavaScript object reference to a FileSystemHandle: the object
identity (`ident`, compared by `===`) plus the handle value it denotes. -/
structure JsRef where
  ident : Nat
  handle : Handle

/-- Resolution of the reply destination used by both listeners of
`add_message_event_handlers`: the message event's `source` when it is
non-null, otherwise the statically configured fallback `target`. -/
def resolve_reply_destination (source : Option Dest) (target : Dest) : Dest :=
  match source with
  | some s => s
  | none => target

/-- Payload of an outgoing `postMessage` call made by the handlers. -/
inductive OutData where
  | broadcastChannelCreated
  | serializedHandles (items : List (JsRef × Snapshot))
  | receiveFile (file_handle : JsRef)
  | receiveDirectory (directory_handle : JsRef)
  | errorReply (text : String)
  | serializedMessageError (event : SerializedMessageErrorEvent)

/-- An observable effect performed by a handler invocation. -/
inductive RouterAction where
  | postMessage (dest : Dest) (payload : OutData)
  | attachHandlers (endpoint : Dest) (fallback : Dest)
  | startPort (port : Dest)
  | createBroadcastChannel (channelName : String)

/-- Incoming message data: the `type` tag plus the per-type fields, each
`none` when the property is absent from the received object. -/
inductive InMessage where
  | mk (type_tag : String) (message_port : Option Dest)
      (broadcast_channel_name : Option String)
      (file_system_handles : Option (List JsRef))

/-- Property access `message_data.type`. -/
def InMessage.type_tag : InMessage → String
  | .mk t _ _ _ => t

/-- The six `case` labels of the `switch` in the message listener. -/
def known_message_types : List String :=
  ["receive-message-port", "create-broadcast-channel",
   "receive-file-system-handles", "receive-serialized-file-system-handles",
   "create-file", "create-directory"]

/-- Results of the platform file-system calls made by the `create-file`
and `create-directory` branches (`getSystemDirectory` followed by
`getFile` / `getDirectory`), supplied as an environment so every failure
pattern of those external calls is covered. -/
structure RouterEnv where
  create_file_result : Except JsError JsRef
  create_directory_result : Except JsError JsRef

/-- The loop of the `receive-file-system-handles` branch: serialize each
received handle in order (a failure aborts the loop) and pair it with the
received reference. -/
def serialize_handle_batch : List JsRef → Except JsError (List (JsRef × Snapshot))
  | [] => .ok []
  | r :: rest => do
      let serialized ← serialize_handle r.handle
      let tail ← serialize_handle_batch rest
      .ok ((r, serialized) :: tail)

/-- The body of the `try` block of the message listener: the `switch` on
`message_data.type`.  Returns the actions performed before completion or
abort, paired with the thrown error if one was raised.  Reading a method
or property from an absent field raises the modelled TypeError, and the
`default` case throws the unknown-type string. -/
def run_switch (env : RouterEnv) (dest : Dest) (msg : InMessage) :
    List RouterAction × Option JsError :=
  match msg with
  | .mk t port bc_name handles =>
    if t = "receive-message-port" then
      match port with
      | none => ([], some (.typeError "Cannot read properties of undefined (reading addEventListener)"))
      | some p => ([.attachHandlers p p, .startPort p], none)
    else if t = "create-broadcast-channel" then
      -- `new BroadcastChannel(undefined)` coerces the name to "undefined".
      let nm := bc_name.getD "undefined"
      ([.createBroadcastChannel nm,
        .attachHandlers (.broadcastChannel nm) (.broadcastChannel nm),
        .postMessage dest .broadcastChannelCreated], none)
    else if t = "receive-file-system-handles" then
      match handles with
      | none => ([], some (.typeError length_of_undefined_message))
      | some hs =>
        match serialize_handle_batch hs with
        | .error e => ([], some e)
        | .ok items => ([.postMessage dest (.serializedHandles items)], none)
    else if t = "receive-serialized-file-system-handles" then
      ([], none)
    else if t = "create-file" then
      match env.create_file_result with
      | .error e => ([], some e)
      | .ok file_handle => ([.postMessage dest (.receiveFile file_handle)], none)
    else if t = "create-directory" then
      match env.create_directory_result with
      | .error e => ([], some e)
      | .ok directory_handle =>
          ([.postMessage dest (.receiveDirectory directory_handle)], none)
    else
      ([], some (.stringError ("Unknown message type: \x27" ++ t ++ "\x27")))

/-- JS string conversion of a thrown value, as used by the template
literal of the catch block: a thrown string is itself; Error objects
stringify with their kind prefix. -/
def js_error_to_string : JsError → String
  | .stringError s => s
  | .typeError m => "TypeError: " ++ m
  | .referenceError m => "ReferenceError: " ++ m
  | .assertionError m => "Error: " ++ m

/-- Embedding of the `message` listener installed by
`add_message_event_handlers`: resolve the reply destination, run the
switch inside `try`, and on a caught error post the best-effort
diagnostic reply to the resolved destination. -/
def on_message (env : RouterEnv) (source : Option Dest) (target : Dest)
    (msg : InMessage) : List RouterAction :=
  let dest := resolve_reply_destination source target
  match run_switch env dest msg with
  | (acts, none) => acts
  | (acts, some e) =>
      acts ++ [.postMessage dest (.errorReply ("ERROR: " ++ js_error_to_string e))]

/-- A `messageerror` MessageEvent as delivered by the platform. -/
structure MessageErrorEvent where
  data : Option String
  origin : String
  lastEventId : String
  source : Option Dest
  ports : List Dest

/-- Embedding of `serialize_message_error_event`: extract `data`,
`origin`, `lastEventId`, source presence and the port count. -/
def serialize_message_error_event (message_error_event : MessageErrorEvent) :
    SerializedMessageErrorEvent :=
  .mk message_error_event.data message_error_event.origin
    message_error_event.lastEventId message_error_event.source.isSome
    message_error_event.ports.length

/-- Embedding of the `messageerror` listener installed by
`add_message_event_handlers`: resolve the reply destination the same way
as the message listener does, then post the serialized event dictionary
as a `serialized-message-error` reply (its `try` body cannot fault in
this model, so the catch branch is never taken). -/
def on_message_error (target : Dest) (message_event : MessageErrorEvent) :
    List RouterAction :=
  let dest := resolve_reply_destination message_event.source target
  [.postMessage dest
    (.serializedMessageError (serialize_message_error_event message_event))]

/-- Modelled from the spec: the `messageerror` event generated by the
platform when a structural clone is disallowed across a trust boundary
(a transport-level delivery failure).  Per the spec scenario it carries
null `data`, an empty `lastEventId`, no ports, and the sender-dependent
`origin` and `source`.  The platform event generation itself is not code
of this repository. -/
def message_error_event_for (origin : String) (source : Option Dest) :
    MessageErrorEvent :=
  .mk none origin "" source []

/-- Modelled from the spec: the platform's structural clone of a handle
reference crossing an Envelope produces a new identity on the receiving
side (a fresh `ident`) with an equal handle value. -/
def structured_clone_ref (fresh : Nat) (r : JsRef) : JsRef :=
  .mk fresh r.handle

/-- Structural clone of a whole outgoing batch of handle references,
given the fresh identities chosen by the receiving side. -/
def clone_refs (freshIds : List Nat) (refs : List JsRef) : List JsRef :=
  (freshIds.zip refs).map (fun p => structured_clone_ref p.1 p.2)

/-- Structural clone of the reply payload of
`receive-serialized-file-system-handles` on its way back: each handle
reference gets a fresh identity, the plain snapshot dictionaries are
cloned by value. -/
def clone_reply_items (freshIds : List Nat)
    (items : List (JsRef × Snapshot)) : List (JsRef × Snapshot) :=
  (freshIds.zip items).map (fun p => (structured_clone_ref p.1 p.2.1, p.2.2))

theorem serialize_directory_shape (n : String) (rp wp : PermissionState)
    (children : List Handle) (s : Snapshot)
    (h : serialize_handle (.directory n rp wp children) = .ok s) :
    ∃ fs0 ds0, serialize_children children = .ok (fs0, ds0) ∧
      s = .mk false true n rp wp none
        (some (List.insertionSort snapNameLe fs0))
        (some (List.insertionSort snapNameLe ds0)) := by
  simp only [serialize_handle, serialize_file_system_directory_handle] at h
  cases hsc : serialize_children children with
  | error e =>
      rw [hsc] at h
      exact Except.noConfusion h
  | ok p =>
      rw [hsc] at h
      obtain ⟨fs0, ds0⟩ := p
      exact ⟨fs0, ds0, rfl, (Except.ok.inj h).symm⟩

/-- Claim C1: for every directory handle, under every enumeration order of
its children, the serialized snapshot carries a `files` sequence and a
`directories` sequence that are each sorted ascending by `name` in the
lexicographic order modelling `localeCompare`. -/
theorem serialize_directory_sorted (n : String) (rp wp : PermissionState)
    (children : List Handle) (s : Snapshot)
    (h : serialize_handle (.directory n rp wp children) = .ok s) :
    ∃ fs ds, s.files = some fs ∧ s.directories = some ds ∧
      List.Sorted snapNameLe fs ∧ List.Sorted snapNameLe ds := by
  obtain ⟨fs0, ds0, _, hs⟩ := serialize_directory_shape n rp wp children s h
  subst hs
  exact ⟨_, _, rfl, rfl,
    List.sorted_insertionSort snapNameLe fs0,
    List.sorted_insertionSort snapNameLe ds0⟩

/-- Directory handle of the spec scenario: file children named "b" and
"a", enumerated in that (unsorted) order. -/
def scramble_order_directory : Handle :=
  .directory "dir" .granted .granted
    [.file "b" .granted .granted "B", .file "a" .granted .granted "A"]

/-- Snapshot that serializing `scramble_order_directory` produces: the
file children come out sorted, "a" before "b". -/
def scramble_order_snapshot : Snapshot :=
  .mk false true "dir" .granted .granted none
    (some [.mk true false "a" .granted .granted (some "A") none none,
           .mk true false "b" .granted .granted (some "B") none none])
    (some [])

theorem serialize_directory_sorted_witness :
    serialize_handle scramble_order_directory = .ok scramble_order_snapshot ∧
    (∃ fs ds, scramble_order_snapshot.files = some fs ∧
      scramble_order_snapshot.directories = some ds ∧
      List.Sorted snapNameLe fs ∧ List.Sorted snapNameLe ds) :=
  ⟨by
    simp only [scramble_order_directory, scramble_order_snapshot,
      serialize_handle, serialize_file_system_directory_handle,
      serialize_children, serialize_file_system_file_handle,
      serialize_file_system_handle]
    rfl,
   serialize_directory_sorted "dir" .granted .granted
    [.file "b" .granted .granted "B", .file "a" .granted .granted "A"]
    scramble_order_snapshot
    (by
      simp only [scramble_order_directory, scramble_order_snapshot,
        serialize_handle, serialize_file_system_directory_handle,
        serialize_children, serialize_file_system_file_handle,
        serialize_file_system_handle]
      rfl)⟩

/-- Shape of every snapshot produced by
`serialize_file_system_file_handle`. -/
inductive FileSnapWF : Snapshot → Prop where
  | mk (n : String) (rp wp : PermissionState) (c : String) :
      FileSnapWF (.mk true false n rp wp (some c) none none)

/-- Shape of every snapshot produced by
`serialize_file_system_directory_handle`: a directory snapshot whose
`files` children are file snapshots and whose `directories` children are
again directory snapshots. -/
inductive DirSnapWF : Snapshot → Prop where
  | mk (n : String) (rp wp : PermissionState) (fs ds : List Snapshot) :
      (∀ x ∈ fs, FileSnapWF x) → (∀ x ∈ ds, DirSnapWF x) →
      DirSnapWF (.mk false true n rp wp none (some fs) (some ds))

mutual

theorem serialize_handle_wf : ∀ (h : Handle) (s : Snapshot),
    serialize_handle h = .ok s →
    (h.isDirectory = true ∧ DirSnapWF s) ∨
    (h.isDirectory = false ∧ FileSnapWF s)
  | .file n rp wp c, s, heq => by
      simp only [serialize_handle, serialize_file_system_file_handle,
        serialize_file_system_handle, Snapshot.assignFileContents] at heq
      exact .inr ⟨rfl, Except.ok.inj heq ▸ FileSnapWF.mk n rp wp c⟩
  | .directory n rp wp children, s, heq => by
      obtain ⟨fs0, ds0, hsc, rfl⟩ :=
        serialize_directory_shape n rp wp children s heq
      obtain ⟨hfs, hds⟩ := serialize_children_wf children fs0 ds0 hsc
      refine .inl ⟨rfl, DirSnapWF.mk n rp wp _ _ ?_ ?_⟩
      · intro x hx
        exact hfs x (((List.perm_insertionSort snapNameLe fs0).mem_iff).mp hx)
      · intro x hx
        exact hds x (((List.perm_insertionSort snapNameLe ds0).mem_iff).mp hx)
  | .other str, s, heq => by
      simp only [serialize_handle] at heq
      exact Except.noConfusion heq

theorem serialize_children_wf : ∀ (cs : List Handle) (fs ds : List Snapshot),
    serialize_children cs = .ok (fs, ds) →
    (∀ x ∈ fs, FileSnapWF x) ∧ (∀ x ∈ ds, DirSnapWF x)
  | [], fs, ds, heq => by
      simp only [serialize_children] at heq
      obtain ⟨rfl, rfl⟩ := Prod.mk.injEq .. ▸ Except.ok.inj heq
      exact ⟨by simp, by simp⟩
  | child :: rest, fs, ds, heq => by
      simp only [serialize_children] at heq
      cases hch : serialize_handle child with
      | error e =>
          rw [hch] at heq
          exact Except.noConfusion heq
      | ok s =>
          rw [hch] at heq
          cases hrest : serialize_children rest with
          | error e =>
              rw [hrest] at heq
              exact Except.noConfusion heq
          | ok p =>
              rw [hrest] at heq
              obtain ⟨fs', ds'⟩ := p
              obtain ⟨hfs', hds'⟩ := serialize_children_wf rest fs' ds' hrest
              cases hdir : child.isDirectory with
              | true =>
                  rw [hdir] at heq
                  simp only [if_pos rfl] at heq
                  obtain ⟨rfl, rfl⟩ := Prod.mk.injEq .. ▸ Except.ok.inj heq
                  have hs := serialize_handle_wf child s hch
                  refine ⟨hfs', ?_⟩
                  intro x hx
                  rcases List.mem_cons.mp hx with rfl | hx'
                  · rcases hs with ⟨_, hd⟩ | ⟨hfalse, _⟩
                    · exact hd
                    · rw [hdir] at hfalse; exact Bool.noConfusion hfalse
                  · exact hds' x hx'
              | false =>
                  rw [hdir] at heq
                  simp only [Bool.false_eq_true, if_neg] at heq
                  obtain ⟨rfl, rfl⟩ := Prod.mk.injEq .. ▸ Except.ok.inj heq
                  have hs := serialize_handle_wf child s hch
                  refine ⟨?_, hds'⟩
                  intro x hx
                  rcases List.mem_cons.mp hx with rfl | hx'
                  · rcases hs with ⟨htrue, _⟩ | ⟨_, hf⟩
                    · rw [hdir] at htrue; exact Bool.noConfusion htrue
                    · exact hf
                  · exact hfs' x hx'

end

theorem assert_equals_refl {α : Type} [DecidableEq α] (a : α) (d : String) :
    assert_equals a a d = .ok () := by
  simp [assert_equals]

theorem assert_equals_serialized_file_system_handles_refl (s : Snapshot) :
    assert_equals_serialized_file_system_handles s s = .ok () := by
  simp only [assert_equals_serialized_file_system_handles, assert_equals_refl]
  rfl

theorem assert_equals_serialized_file_system_file_handles_refl (s : Snapshot) :
    assert_equals_serialized_file_system_file_handles s s = .ok () := by
  simp only [assert_equals_serialized_file_system_file_handles,
    assert_equals_serialized_file_system_handles_refl, assert_equals_refl]
  rfl

theorem compare_serialized_file_lists_refl (l : List Snapshot) :
    compare_serialized_file_lists l l = .ok () := by
  induction l with
  | nil => simp [compare_serialized_file_lists]
  | cons x xs ih =>
      simp only [compare_serialized_file_lists,
        assert_equals_serialized_file_system_file_handles_refl, ih]
      rfl

theorem compare_serialized_directory_lists_refl (ds : List Snapshot)
    (h : ∀ x ∈ ds,
      assert_equals_serialized_file_system_directory_handles x x = .ok ()) :
    compare_serialized_directory_lists ds ds = .ok () := by
  induction ds with
  | nil => simp [compare_serialized_directory_lists]
  | cons x xs ih =>
      have hx := h x (List.mem_cons_self x xs)
      have hxs := ih (fun y hy => h y (List.mem_cons_of_mem x hy))
      simp only [compare_serialized_directory_lists, hx, hxs]
      rfl

theorem assert_equals_serialized_file_system_directory_handles_refl
    (s : Snapshot) (hwf : DirSnapWF s) :
    assert_equals_serialized_file_system_directory_handles s s = .ok () := by
  induction hwf with
  | mk n rp wp fs ds hfs hds ih =>
      simp only [assert_equals_serialized_file_system_directory_handles,
        Snapshot.files, Snapshot.directories,
        assert_equals_serialized_file_system_handles_refl, assert_equals_refl,
        compare_serialized_file_lists_refl,
        compare_serialized_directory_lists_refl ds ih]
      rfl

/-- Claim C5: for every handle whose serialization succeeds (files and
directories), comparing the produced snapshot with itself via
`assert_equals_serialized_handles` returns normally, raising no
assertion error: snapshot comparison is reflexive on serializer
output. -/
theorem assert_equals_serialized_handles_refl (h : Handle) (s : Snapshot)
    (hok : serialize_handle h = .ok s) :
    assert_equals_serialized_handles s s = .ok () := by
  rcases serialize_handle_wf h s hok with ⟨_, hd⟩ | ⟨_, hf⟩
  · cases hd with
    | mk n rp wp fs ds hfs hds =>
        simp only [assert_equals_serialized_handles, Snapshot.is_directory,
          if_pos]
        exact assert_equals_serialized_file_system_directory_handles_refl _
          (DirSnapWF.mk n rp wp fs ds hfs hds)
  · cases hf with
    | mk n rp wp c =>
        simp only [assert_equals_serialized_handles, Snapshot.is_directory,
          Snapshot.is_file, Bool.false_eq_true, if_neg, if_pos]
        exact assert_equals_serialized_file_system_file_handles_refl _

/-- File handle of the spec scenario: "a.txt" with content "hello" and
granted permissions. -/
def hello_file : Handle := .file "a.txt" .granted .granted "hello"

/-- Snapshot that serializing `hello_file` produces. -/
def hello_file_snapshot : Snapshot :=
  .mk true false "a.txt" .granted .granted (some "hello") none none

theorem assert_equals_serialized_handles_refl_witness :
    serialize_handle hello_file = .ok hello_file_snapshot ∧
    assert_equals_serialized_handles hello_file_snapshot hello_file_snapshot =
      .ok () :=
  ⟨by
    simp only [hello_file, hello_file_snapshot, serialize_handle,
      serialize_file_system_file_handle, serialize_file_system_handle]
    rfl,
   assert_equals_serialized_handles_refl hello_file hello_file_snapshot
    (by
      simp only [hello_file, hello_file_snapshot, serialize_handle,
        serialize_file_system_file_handle, serialize_file_system_handle]
      rfl)⟩

/-- Tests whether a serialization outcome is a thrown `TypeError`. -/
def fails_with_type_error : Except JsError Snapshot → Bool
  | .error (.typeError _) => true
  | _ => false

theorem serialize_handle_not_a_handle_counterexample :
    serialize_handle (.other "[object Object]") =
      .error (.stringError
        "Object is not a FileSystemFileHandle or FileSystemDirectoryHandle [object Object]") ∧
    fails_with_type_error (serialize_handle (.other "[object Object]")) = false := by
  have h1 : serialize_handle (.other "[object Object]") =
      .error (.stringError
        "Object is not a FileSystemFileHandle or FileSystemDirectoryHandle [object Object]") := by
    simp only [serialize_handle, not_a_handle_message]
    rfl
  exact ⟨h1, by rw [h1]; rfl⟩

/-- Claim C6 (amended): for every input object that is neither a file
handle nor a directory handle, `serialize_handle` fails rather than
returning a snapshot, but the thrown value is the not-a-handle string
(a plain JS string), not a `TypeError`. -/
theorem serialize_handle_not_a_handle (str : String) :
    serialize_handle (.other str) =
      .error (.stringError (not_a_handle_message ++ str)) := by
  simp [serialize_handle]

/-- Claim C10: for every left snapshot with both `is_directory` and
`is_file` false, `assert_equals_serialized_handles` never returns
normally, for every right snapshot — and the raised error is the
`ReferenceError` caused by the unbound identifier `handle` in the
fallback branch, not the descriptive not-a-handle message. -/
theorem assert_equals_serialized_handles_not_a_handle (left right : Snapshot)
    (hd : left.is_directory = false) (hf : left.is_file = false) :
    assert_equals_serialized_handles left right =
      .error (.referenceError "handle is not defined") := by
  simp [assert_equals_serialized_handles, hd, hf]

theorem assert_equals_serialized_handles_not_a_handle_witness :
    (Snapshot.mk false false "x" .granted .granted none none none).is_directory
        = false ∧
    (Snapshot.mk false false "x" .granted .granted none none none).is_file
        = false ∧
    assert_equals_serialized_handles
      (.mk false false "x" .granted .granted none none none)
      (.mk true false "y" .granted .granted (some "c") none none) =
      .error (.referenceError "handle is not defined") :=
  ⟨rfl, rfl, assert_equals_serialized_handles_not_a_handle _ _ rfl rfl⟩


theorem except_bind_ok {ε α β : Type} (a : α) (f : α → Except ε β) :
    (Bind.bind (Except.ok a) f : Except ε β) = f a := rfl

theorem except_bind_error {ε α β : Type} (e : ε) (f : α → Except ε β) :
    (Bind.bind (Except.error e) f : Except ε β) = Except.error e := rfl

theorem dir_cmp_shared_fail (l r : Snapshot) (e : JsError)
    (hsh : assert_equals_serialized_file_system_handles l r = .error e) :
    assert_equals_serialized_file_system_directory_handles l r = .error e := by
  cases l with
  | mk lf ld ln lr lw lfc lfs lds =>
      cases lfs with
      | none =>
          rw [assert_equals_serialized_file_system_directory_handles.eq_1, hsh]
          rfl
      | some lfsl =>
          cases hrf : r.files with
          | none =>
              rw [assert_equals_serialized_file_system_directory_handles.eq_2
                r lf ld ln lr lw lfc lds lfsl hrf, hsh]
              rfl
          | some rfsl =>
              cases lds with
              | none =>
                  rw [assert_equals_serialized_file_system_directory_handles.eq_3
                    r lf ld ln lr lw lfc lfsl rfsl hrf, hsh]
                  rfl
              | some ldsl =>
                  cases hrd : r.directories with
                  | none =>
                      rw [assert_equals_serialized_file_system_directory_handles.eq_4
                        r lf ld ln lr lw lfc lfsl rfsl ldsl hrf hrd, hsh]
                      rfl
                  | some rdsl =>
                      rw [assert_equals_serialized_file_system_directory_handles.eq_5
                        r lf ld ln lr lw lfc lfsl rfsl ldsl rdsl hrf hrd, hsh]
                      rfl

theorem dir_cmp_file_count_fail (l r : Snapshot) (lfsl rfsl : List Snapshot)
    (hsh : assert_equals_serialized_file_system_handles l r = .ok ())
    (hlf : l.files = some lfsl) (hrf : r.files = some rfsl)
    (hne : lfsl.length ≠ rfsl.length) :
    assert_equals_serialized_file_system_directory_handles l r =
      .error (.assertionError file_count_description) := by
  have hassert : assert_equals lfsl.length rfsl.length file_count_description =
      .error (.assertionError file_count_description) := by
    simp [assert_equals, hne]
  cases l with
  | mk lf ld ln lr lw lfc lfs lds =>
      simp only [Snapshot.files] at hlf
      subst hlf
      cases lds with
      | none =>
          rw [assert_equals_serialized_file_system_directory_handles.eq_3
            r lf ld ln lr lw lfc lfsl rfsl hrf]
          simp only [hsh, hassert, except_bind_ok, except_bind_error]
      | some ldsl =>
          cases hrd : r.directories with
          | none =>
              rw [assert_equals_serialized_file_system_directory_handles.eq_4
                r lf ld ln lr lw lfc lfsl rfsl ldsl hrf hrd]
              simp only [hsh, hassert, except_bind_ok, except_bind_error]
          | some rdsl =>
              rw [assert_equals_serialized_file_system_directory_handles.eq_5
                r lf ld ln lr lw lfc lfsl rfsl ldsl rdsl hrf hrd]
              simp only [hsh, hassert, except_bind_ok, except_bind_error]

theorem dir_cmp_directory_count_fail (l r : Snapshot)
    (lfsl rfsl ldsl rdsl : List Snapshot)
    (hsh : assert_equals_serialized_file_system_handles l r = .ok ())
    (hlf : l.files = some lfsl) (hrf : r.files = some rfsl)
    (hlen : lfsl.length = rfsl.length)
    (hcmp : compare_serialized_file_lists lfsl rfsl = .ok ())
    (hld : l.directories = some ldsl) (hrd : r.directories = some rdsl)
    (hne : ldsl.length ≠ rdsl.length) :
    assert_equals_serialized_file_system_directory_handles l r =
      .error (.assertionError directory_count_description) := by
  have ha1 : assert_equals lfsl.length rfsl.length file_count_description =
      .ok () := by
    simp [assert_equals, hlen]
  have ha2 : assert_equals ldsl.length rdsl.length directory_count_description =
      .error (.assertionError directory_count_description) := by
    simp [assert_equals, hne]
  cases l with
  | mk lf ld ln lr lw lfc lfs lds =>
      simp only [Snapshot.files] at hlf
      simp only [Snapshot.directories] at hld
      subst hlf
      subst hld
      rw [assert_equals_serialized_file_system_directory_handles.eq_5
        r lf ld ln lr lw lfc lfsl rfsl ldsl rdsl hrf hrd]
      simp only [hsh, ha1, hcmp, ha2, except_bind_ok, except_bind_error]

theorem main_cmp_file_branch (l r : Snapshot)
    (hd : l.is_directory = false) (hf : l.is_file = true) :
    assert_equals_serialized_handles l r = (do
      assert_equals_serialized_file_system_handles l r
      assert_equals l.file_contents r.file_contents
        "Each FileSystemFileHandle instance must have the same contents.") := by
  simp only [assert_equals_serialized_handles, hd, hf,
    Bool.false_eq_true, if_neg, if_pos]
  rfl

theorem main_cmp_dir_branch (l r : Snapshot) (hd : l.is_directory = true) :
    assert_equals_serialized_handles l r =
      assert_equals_serialized_file_system_directory_handles l r := by
  simp [assert_equals_serialized_handles, hd]

theorem compare_serialized_file_lists_ok_iff :
    ∀ (ls rs : List Snapshot), ls.length = rs.length →
    (compare_serialized_file_lists ls rs = .ok () ↔
      ∀ (i : Nat) (h1 : i < ls.length) (h2 : i < rs.length),
        assert_equals_serialized_file_system_file_handles
          (ls.get ⟨i, h1⟩) (rs.get ⟨i, h2⟩) = .ok ())
  | [], [], _ => by simp [compare_serialized_file_lists]
  | [], _ :: _, h => by simp at h
  | _ :: _, [], h => by simp at h
  | l :: ls, r :: rs, h => by
      simp only [List.length_cons, Nat.add_right_cancel_iff] at h
      have ih := compare_serialized_file_lists_ok_iff ls rs h
      constructor
      · intro hok i h1 h2
        cases hflr : assert_equals_serialized_file_system_file_handles l r with
        | error e =>
            rw [show compare_serialized_file_lists (l :: ls) (r :: rs) =
              .error e by
                simp only [compare_serialized_file_lists, hflr,
                  except_bind_error]] at hok
            exact Except.noConfusion hok
        | ok u =>
            cases u
            simp only [compare_serialized_file_lists, hflr,
              except_bind_ok] at hok
            match i with
            | 0 => exact hflr
            | j + 1 =>
                exact ih.mp hok j (Nat.lt_of_succ_lt_succ h1)
                  (Nat.lt_of_succ_lt_succ h2)
      · intro hall
        have h0 := hall 0 (Nat.succ_pos _) (Nat.succ_pos _)
        simp only [List.get] at h0
        simp only [compare_serialized_file_lists, h0, except_bind_ok]
        exact ih.mpr (fun j hj1 hj2 =>
          hall (j + 1) (Nat.succ_lt_succ hj1) (Nat.succ_lt_succ hj2))

/-- Claim C9: the snapshot comparator first compares the five shared
fields (fail-fast), then requires equal `files` lengths, failing with the
description naming the file-children collection, before comparing the
file children pairwise by index; likewise it requires equal
`directories` lengths (with the directory-children description) before
the pairwise directory comparison; and for a file snapshot it compares
the shared fields plus exact `file_contents` equality. -/
theorem comparator_dispatch_structure :
    (∀ (l r : Snapshot) (e : JsError), l.is_directory = true →
      assert_equals_serialized_file_system_handles l r = .error e →
      assert_equals_serialized_handles l r = .error e) ∧
    (∀ (l r : Snapshot) (lfsl rfsl : List Snapshot), l.is_directory = true →
      assert_equals_serialized_file_system_handles l r = .ok () →
      l.files = some lfsl → r.files = some rfsl →
      lfsl.length ≠ rfsl.length →
      assert_equals_serialized_handles l r =
        .error (.assertionError file_count_description)) ∧
    (∀ (l r : Snapshot) (lfsl rfsl ldsl rdsl : List Snapshot),
      l.is_directory = true →
      assert_equals_serialized_file_system_handles l r = .ok () →
      l.files = some lfsl → r.files = some rfsl →
      lfsl.length = rfsl.length →
      compare_serialized_file_lists lfsl rfsl = .ok () →
      l.directories = some ldsl → r.directories = some rdsl →
      ldsl.length ≠ rdsl.length →
      assert_equals_serialized_handles l r =
        .error (.assertionError directory_count_description)) ∧
    (∀ (ls rs : List Snapshot), ls.length = rs.length →
      (compare_serialized_file_lists ls rs = .ok () ↔
        ∀ (i : Nat) (h1 : i < ls.length) (h2 : i < rs.length),
          assert_equals_serialized_file_system_file_handles
            (ls.get ⟨i, h1⟩) (rs.get ⟨i, h2⟩) = .ok ())) ∧
    (∀ (l r : Snapshot), l.is_directory = false → l.is_file = true →
      assert_equals_serialized_handles l r = (do
        assert_equals_serialized_file_system_handles l r
        assert_equals l.file_contents r.file_contents
          "Each FileSystemFileHandle instance must have the same contents.")) :=
  ⟨fun l r e hd hsh =>
      (main_cmp_dir_branch l r hd).trans (dir_cmp_shared_fail l r e hsh),
   fun l r lfsl rfsl hd hsh hlf hrf hne =>
      (main_cmp_dir_branch l r hd).trans
        (dir_cmp_file_count_fail l r lfsl rfsl hsh hlf hrf hne),
   fun l r lfsl rfsl ldsl rdsl hd hsh hlf hrf hlen hcmp hld hrd hne =>
      (main_cmp_dir_branch l r hd).trans
        (dir_cmp_directory_count_fail l r lfsl rfsl ldsl rdsl hsh hlf hrf
          hlen hcmp hld hrd hne),
   compare_serialized_file_lists_ok_iff,
   main_cmp_file_branch⟩

/-- Directory snapshot with one file child, for exercising the
file-children length check. -/
def length_mismatch_left : Snapshot :=
  .mk false true "d" .granted .granted none
    (some [.mk true false "f" .granted .granted (some "x") none none])
    (some [])

/-- Directory snapshot with no file children and otherwise the same
shared fields as `length_mismatch_left`. -/
def length_mismatch_right : Snapshot :=
  .mk false true "d" .granted .granted none (some []) (some [])

theorem comparator_dispatch_structure_witness :
    length_mismatch_left.is_directory = true ∧
    assert_equals_serialized_handles length_mismatch_left
        length_mismatch_right =
      .error (.assertionError file_count_description) :=
  ⟨rfl,
   comparator_dispatch_structure.2.1 length_mismatch_left
    length_mismatch_right
    [.mk true false "f" .granted .granted (some "x") none none] []
    rfl (by rfl) rfl rfl (by decide)⟩

/-- Claim C3: every failure raised while the message listener processes an
inbound message (the unknown-type throw included) is caught and converted
into a reply of the form `ERROR: <description>` posted to the resolved
reply destination, appended after whatever actions had already been
performed — a faulting invocation never ends without sending a reply. -/
theorem message_handler_catches_all_failures (env : RouterEnv)
    (source : Option Dest) (target : Dest) (msg : InMessage) (e : JsError)
    (hfault :
      (run_switch env (resolve_reply_destination source target) msg).2 =
        some e) :
    on_message env source target msg =
      (run_switch env (resolve_reply_destination source target) msg).1 ++
        [.postMessage (resolve_reply_destination source target)
          (.errorReply ("ERROR: " ++ js_error_to_string e))] := by
  rcases hrs : run_switch env (resolve_reply_destination source target) msg
    with ⟨acts, fault⟩
  rw [hrs] at hfault
  simp only at hfault
  subst hfault
  simp [on_message, hrs]

theorem message_handler_catches_all_failures_witness :
    (run_switch (RouterEnv.mk (.ok (JsRef.mk 0 (.other ""))) (.ok (JsRef.mk 1 (.other ""))))
        (resolve_reply_destination none (.endpoint 7)) (.mk "bogus" none none none)).2 =
      some (.stringError "Unknown message type: \x27bogus\x27") ∧
    on_message (RouterEnv.mk (.ok (JsRef.mk 0 (.other ""))) (.ok (JsRef.mk 1 (.other ""))))
        none (.endpoint 7) (.mk "bogus" none none none) =
      (run_switch (RouterEnv.mk (.ok (JsRef.mk 0 (.other ""))) (.ok (JsRef.mk 1 (.other ""))))
          (resolve_reply_destination none (.endpoint 7)) (.mk "bogus" none none none)).1 ++
        [.postMessage (resolve_reply_destination none (.endpoint 7))
          (.errorReply ("ERROR: " ++
            js_error_to_string (.stringError "Unknown message type: \x27bogus\x27")))] :=
  ⟨rfl,
   message_handler_catches_all_failures _ none (.endpoint 7)
    (.mk "bogus" none none none) _ rfl⟩

/-- Claim C4: for an inbound message whose type tag is none of the six
recognized kinds, the handler performs exactly one observable effect: it
posts the string "ERROR: Unknown message type: '<type>'" to the resolved
destination. -/
theorem unknown_message_type_reply (env : RouterEnv) (source : Option Dest)
    (target : Dest) (port : Option Dest) (bc : Option String)
    (handles : Option (List JsRef)) (t : String)
    (hunk : t ∉ known_message_types) :
    on_message env source target (.mk t port bc handles) =
      [.postMessage (resolve_reply_destination source target)
        (.errorReply ("ERROR: Unknown message type: \x27" ++ (t ++ "\x27")))] := by
  simp only [known_message_types, List.mem_cons, List.not_mem_nil, or_false,
    not_or] at hunk
  obtain ⟨h1, h2, h3, h4, h5, h6⟩ := hunk
  simp [on_message, run_switch, h1, h2, h3, h4, h5, h6, js_error_to_string,
    String.append_assoc]
  rw [← String.append_assoc]
  rfl

theorem unknown_message_type_reply_witness :
    "bogus" ∉ known_message_types ∧
    on_message (RouterEnv.mk (.ok (JsRef.mk 0 (.other ""))) (.ok (JsRef.mk 1 (.other ""))))
        (some (.endpoint 3)) (.endpoint 7) (.mk "bogus" none none none) =
      [.postMessage (resolve_reply_destination (some (.endpoint 3)) (.endpoint 7))
        (.errorReply ("ERROR: Unknown message type: \x27" ++ ("bogus" ++ "\x27")))] :=
  ⟨by decide,
   unknown_message_type_reply _ (some (.endpoint 3)) (.endpoint 7)
    none none none "bogus" (by decide)⟩

theorem run_switch_post_dest (env : RouterEnv) (dest : Dest) (msg : InMessage)
    (d : Dest) (o : OutData)
    (hmem : RouterAction.postMessage d o ∈ (run_switch env dest msg).1) :
    d = dest := by
  obtain ⟨t, port, bc, handles⟩ := msg
  simp only [run_switch] at hmem
  split_ifs at hmem with h1 h2 h3 h4 h5 h6
  all_goals repeat' split at hmem
  all_goals simp_all

/-- Claim C7: both listeners resolve the reply destination as the event's
source when it is non-null and as the configured fallback target
otherwise, and every reply they post goes to the destination so
resolved. -/
theorem reply_destination_resolution :
    (∀ (env : RouterEnv) (source : Option Dest) (target : Dest)
        (msg : InMessage) (d : Dest) (o : OutData),
      RouterAction.postMessage d o ∈ on_message env source target msg →
      d = resolve_reply_destination source target) ∧
    (∀ (target : Dest) (ev : MessageErrorEvent) (d : Dest) (o : OutData),
      RouterAction.postMessage d o ∈ on_message_error target ev →
      d = resolve_reply_destination ev.source target) := by
  constructor
  · intro env source target msg d o hmem
    simp only [on_message] at hmem
    rcases hrs : run_switch env (resolve_reply_destination source target) msg
      with ⟨acts, fault⟩
    rw [hrs] at hmem
    cases fault with
    | none =>
        simp only at hmem
        exact run_switch_post_dest env _ msg d o (by rw [hrs]; exact hmem)
    | some e =>
        simp only [List.mem_append, List.mem_singleton] at hmem
        rcases hmem with hmem | hmem
        · exact run_switch_post_dest env _ msg d o (by rw [hrs]; exact hmem)
        · injection hmem with hd ho
  · intro target ev d o hmem
    simp only [on_message_error, List.mem_singleton] at hmem
    cases hmem
    rfl

theorem reply_destination_resolution_witness :
    RouterAction.postMessage (.endpoint 3)
        (.errorReply ("ERROR: " ++ js_error_to_string
          (.stringError "Unknown message type: \x27z\x27"))) ∈
      on_message
        (RouterEnv.mk (.ok (JsRef.mk 0 (.other ""))) (.ok (JsRef.mk 1 (.other ""))))
        (some (.endpoint 3)) (.endpoint 7) (.mk "z" none none none) ∧
    Dest.endpoint 3 = resolve_reply_destination (some (.endpoint 3)) (.endpoint 7) :=
  ⟨List.mem_singleton.mpr rfl,
   reply_destination_resolution.1
    (RouterEnv.mk (.ok (JsRef.mk 0 (.other ""))) (.ok (JsRef.mk 1 (.other ""))))
    (some (.endpoint 3)) (.endpoint 7) (.mk "z" none none none) (.endpoint 3)
    (.errorReply ("ERROR: " ++ js_error_to_string
      (.stringError "Unknown message type: \x27z\x27")))
    (List.mem_singleton.mpr rfl)⟩

theorem assert_equals_ok_iff {α : Type} [DecidableEq α] (a b : α) (d : String) :
    assert_equals a b d = .ok () ↔ a = b := by
  by_cases h : a = b <;> simp [assert_equals, h]

theorem bind_unit_ok_iff {ε : Type} (x y : Except ε Unit) :
    (do x; y : Except ε Unit) = .ok () ↔ (x = .ok () ∧ y = .ok ()) := by
  cases x with
  | error e => simp [except_bind_error]
  | ok u => cases u; simp [except_bind_ok]

/-- Claim C8: a handle sent across a clone-refusing trust boundary
produces no `receive-serialized-file-system-handles` reply; the
`messageerror` handler instead posts exactly one `serialized-message-error`
report carrying the failure event's data, origin, lastEventId, source
presence and port count; and that report passes
`assert_equals_serialized_message_error_event` exactly when `data` is
null, `last_event_id` is empty, `ports_length` is zero, and `origin` and
`has_source` match the expected values. -/
theorem message_error_report (origin : String) (source : Option Dest)
    (target : Dest) :
    on_message_error target (message_error_event_for origin source) =
      [.postMessage (resolve_reply_destination source target)
        (.serializedMessageError (.mk none origin "" source.isSome 0))] ∧
    (∀ (d : Dest) (items : List (JsRef × Snapshot)),
      RouterAction.postMessage d (.serializedHandles items) ∉
        on_message_error target (message_error_event_for origin source)) ∧
    (∀ (se : SerializedMessageErrorEvent) (eo : String) (ehs : Bool),
      assert_equals_serialized_message_error_event se eo ehs = .ok () ↔
        (se.data = none ∧ se.origin = eo ∧ se.last_event_id = "" ∧
          se.has_source = ehs ∧ se.ports_length = 0)) := by
  refine ⟨rfl, ?_, ?_⟩
  · intro d items hmem
    simp only [on_message_error, message_error_event_for,
      serialize_message_error_event, List.mem_singleton] at hmem
    exact OutData.noConfusion (RouterAction.postMessage.inj hmem).2
  · intro se eo ehs
    obtain ⟨sd, so, sl, shs, sp⟩ := se
    simp only [assert_equals_serialized_message_error_event,
      bind_unit_ok_iff, assert_equals_ok_iff]

theorem message_error_report_witness :
    on_message_error (.endpoint 7)
        (message_error_event_for "https://origin.example" (some (.endpoint 3))) =
      [.postMessage (resolve_reply_destination (some (.endpoint 3)) (.endpoint 7))
        (.serializedMessageError
          (.mk none "https://origin.example" "" (some (Dest.endpoint 3)).isSome 0))] :=
  (message_error_report "https://origin.example" (some (.endpoint 3))
    (.endpoint 7)).1

/-- Default reference used by positional lookups (`List.getD`). -/
def dummy_ref : JsRef := .mk 0 (.other "")

/-- Default pair used by positional lookups (`List.getD`). -/
def dummy_pair : JsRef × Snapshot :=
  (dummy_ref, .mk false false "" .prompt .prompt none none none)

theorem serialize_handle_batch_spec :
    ∀ (rs : List JsRef) (items : List (JsRef × Snapshot)),
    serialize_handle_batch rs = .ok items →
    items.length = rs.length ∧
    ∀ i : Nat, i < rs.length →
      (items.getD i dummy_pair).1 = rs.getD i dummy_ref ∧
      serialize_handle (rs.getD i dummy_ref).handle =
        .ok (items.getD i dummy_pair).2
  | [], items, h => by
      simp only [serialize_handle_batch] at h
      obtain rfl := (Except.ok.inj h).symm
      exact ⟨rfl, fun i hi => absurd hi (by simp)⟩
  | r :: rest, items, h => by
      simp only [serialize_handle_batch] at h
      cases hs : serialize_handle r.handle with
      | error e => rw [hs] at h; exact Except.noConfusion h
      | ok s =>
          rw [hs] at h
          cases ht : serialize_handle_batch rest with
          | error e => rw [ht] at h; exact Except.noConfusion h
          | ok tail =>
              rw [ht] at h
              obtain rfl := (Except.ok.inj h).symm
              obtain ⟨hlen, hget⟩ := serialize_handle_batch_spec rest tail ht
              refine ⟨by simp [hlen], ?_⟩
              intro i hi
              match i with
              | 0 => exact ⟨rfl, hs⟩
              | j + 1 =>
                  simp only [List.getD_cons_succ]
                  exact hget j (Nat.lt_of_succ_lt_succ hi)

theorem clone_refs_getD :
    ∀ (freshIds : List Nat) (rs : List JsRef) (i : Nat),
    freshIds.length = rs.length → i < rs.length →
    (clone_refs freshIds rs).getD i dummy_ref =
      JsRef.mk (freshIds.getD i 0) ((rs.getD i dummy_ref).handle)
  | [], [], i, _, hi => by simp at hi
  | [], _ :: _, i, h, _ => by simp at h
  | _ :: _, [], i, _, hi => by simp at hi
  | f :: fs, r :: rs, 0, _, _ => by
      simp [clone_refs, structured_clone_ref]
  | f :: fs, r :: rs, i + 1, h, hi => by
      have hfold : clone_refs (f :: fs) (r :: rs) =
          structured_clone_ref f r :: clone_refs fs rs := rfl
      rw [hfold]
      simp only [List.getD_cons_succ]
      exact clone_refs_getD fs rs i (by simpa using h)
        (Nat.lt_of_succ_lt_succ hi)

theorem clone_reply_items_getD :
    ∀ (freshIds : List Nat) (items : List (JsRef × Snapshot)) (i : Nat),
    freshIds.length = items.length → i < items.length →
    (clone_reply_items freshIds items).getD i dummy_pair =
      (JsRef.mk (freshIds.getD i 0) ((items.getD i dummy_pair).1.handle),
        (items.getD i dummy_pair).2)
  | [], [], i, _, hi => by simp at hi
  | [], _ :: _, i, h, _ => by simp at h
  | _ :: _, [], i, _, hi => by simp at hi
  | f :: fs, p :: ps, 0, _, _ => by
      simp [clone_reply_items, structured_clone_ref]
  | f :: fs, p :: ps, i + 1, h, hi => by
      have hfold : clone_reply_items (f :: fs) (p :: ps) =
          (structured_clone_ref f p.1, p.2) :: clone_reply_items fs ps := rfl
      rw [hfold]
      simp only [List.getD_cons_succ]
      exact clone_reply_items_getD fs ps i (by simpa using h)
        (Nat.lt_of_succ_lt_succ hi)

theorem clone_refs_length (freshIds : List Nat) (rs : List JsRef)
    (h : freshIds.length = rs.length) :
    (clone_refs freshIds rs).length = rs.length := by
  simp [clone_refs, h]

/-- Claim C2: for each handle in a batch sent as a
`receive-file-system-handles` Envelope, the reference coming back in the
`receive-serialized-file-system-handles` reply has a different identity
from the original, serializing that returned clone yields the same
snapshot as serializing the original, and the remotely-computed snapshot
included in the reply also equals the original's snapshot. -/
theorem handle_clone_round_trip (originals : List JsRef) (out ret : List Nat)
    (items : List (JsRef × Snapshot)) (i : Nat)
    (hout : out.length = originals.length)
    (hbatch : serialize_handle_batch (clone_refs out originals) = .ok items)
    (hret : ret.length = items.length)
    (hi : i < originals.length)
    (hfresh : ret.getD i 0 ≠ (originals.getD i dummy_ref).ident) :
    ((clone_reply_items ret items).getD i dummy_pair).1.ident ≠
      (originals.getD i dummy_ref).ident ∧
    serialize_handle
        ((clone_reply_items ret items).getD i dummy_pair).1.handle =
      serialize_handle ((originals.getD i dummy_ref).handle) ∧
    Except.ok ((clone_reply_items ret items).getD i dummy_pair).2 =
      serialize_handle ((originals.getD i dummy_ref).handle) := by
  have hclen : (clone_refs out originals).length = originals.length :=
    clone_refs_length out originals hout
  obtain ⟨hilen, hget⟩ := serialize_handle_batch_spec _ items hbatch
  have hi2 : i < items.length := by rw [hilen, hclen]; exact hi
  have hci : i < (clone_refs out originals).length := by rw [hclen]; exact hi
  obtain ⟨hfst, hser⟩ := hget i hci
  have hcg := clone_refs_getD out originals i hout hi
  have hrg := clone_reply_items_getD ret items i hret hi2
  rw [hrg]
  refine ⟨by simpa using hfresh, ?_, ?_⟩
  · simp only
    rw [hfst, hcg]
  · simp only
    rw [← hser, hcg]

theorem handle_clone_round_trip_witness :
    serialize_handle_batch
        (clone_refs [2] [JsRef.mk 1 (.file "f" .granted .granted "x")]) =
      .ok [(JsRef.mk 2 (.file "f" .granted .granted "x"),
        .mk true false "f" .granted .granted (some "x") none none)] ∧
    (((clone_reply_items [3]
          [(JsRef.mk 2 (.file "f" .granted .granted "x"),
            .mk true false "f" .granted .granted (some "x") none none)]).getD 0
          dummy_pair).1.ident ≠
        (([JsRef.mk 1 (.file "f" .granted .granted "x")].getD 0
          dummy_ref)).ident ∧
      serialize_handle
          ((clone_reply_items [3]
            [(JsRef.mk 2 (.file "f" .granted .granted "x"),
              .mk true false "f" .granted .granted (some "x") none none)]).getD 0
            dummy_pair).1.handle =
        serialize_handle
          (([JsRef.mk 1 (.file "f" .granted .granted "x")].getD 0
            dummy_ref)).handle ∧
      Except.ok
          ((clone_reply_items [3]
            [(JsRef.mk 2 (.file "f" .granted .granted "x"),
              .mk true false "f" .granted .granted (some "x") none none)]).getD 0
            dummy_pair).2 =
        serialize_handle
          (([JsRef.mk 1 (.file "f" .granted .granted "x")].getD 0
            dummy_ref)).handle) :=
  ⟨by
    simp only [clone_refs, structured_clone_ref, serialize_handle_batch,
      serialize_handle, serialize_file_system_file_handle,
      serialize_file_system_handle]
    rfl,
   handle_clone_round_trip [JsRef.mk 1 (.file "f" .granted .granted "x")]
    [2] [3]
    [(JsRef.mk 2 (.file "f" .granted .granted "x"),
      .mk true false "f" .granted .granted (some "x") none none)]
    0 rfl
    (by
      simp only [clone_refs, structured_clone_ref, serialize_handle_batch,
        serialize_handle, serialize_file_system_file_handle,
        serialize_file_system_handle]
      rfl)
    rfl (by decide) (by decide)⟩
